import Mathlib

/-!
Verification of the airtable-api-proxy synchronization engine.

Shallow embedding of the parts of src/esovdb.js and src/zotero.js (which also
contains the util module) that the claims concern: the listVideos filter
construction and paginated page-walk, the cache write discipline, the 50-item
chunking loops, the formatItems transform (creators, optimistic-concurrency
token, archiveLocation), createCollection parent dispatch, packageAuthors
error behaviour, and the record-id round trip through archiveLocation.
-/

namespace AirtableProxy

/-- JavaScript-style primitive value, as far as the proxy's record fields
need: a field read from a record is either absent (`undef`), a string, or a
number. -/
inductive JSVal where
  | undef : JSVal
  | str : String → JSVal
  | num : Int → JSVal
deriving DecidableEq

/-- JavaScript truthiness of a `JSVal`: `undefined`, the empty string and `0`
are falsy, everything else is truthy. -/
def JSVal.truthy : JSVal → Bool
  | .undef => false
  | .str s => s ≠ ""
  | .num n => n ≠ 0

/-- The error a JavaScript expression can throw in the fragments modelled
here: calling a method of, or indexing into, `undefined`. -/
inductive JSError where
  | typeError : JSError
deriving DecidableEq

/-- One entry of the array produced by util.packageAuthors:
`{ firstName: f, lastName: last[i] }`, where `last[i]` is `undefined` (here
`none`) when the index runs past the end of the last-name array. -/
structure Author where
  firstName : String
  lastName : Option String
deriving DecidableEq

/-- util.packageAuthors (zotero.js line 518):
`(first, last) => first.map((f, i) => ({ firstName: f, lastName: last[i] }))`.
The two arguments model possibly-absent (`undefined`) arrays; calling `.map`
on an absent `first` throws a TypeError, and evaluating `last[i]` with `last`
absent throws a TypeError as soon as the callback runs, i.e. whenever `first`
is non-empty. -/
def packageAuthors : Option (List String) → Option (List String) → Except JSError (List Author)
  | none, _ => .error .typeError
  | some fs, some ls => .ok (fs.mapIdx fun i f => ⟨f, ls.get? i⟩)
  | some fs, none => if fs.isEmpty then .ok [] else .error .typeError

/-- A Zotero creator entry as built in zotero.formatItems: either a
structured `{creatorType:'contributor', firstName, lastName}` entry or a
free-text `{creatorType:'contributor', name}` entry. -/
inductive Creator where
  | named : String → String → Creator
  | solo : String → Creator
deriving DecidableEq

/-- The value formatItems assigns to `creators`: an array of creator entries
when presenter data exists, and otherwise the single object
`{creatorType:'contributor', name:'Unknown'}` (an object, not an array). -/
inductive Creators where
  | arr : List Creator → Creators
  | single : Creator → Creators
deriving DecidableEq

/-- The free-text name built for a presenter missing a first or a last name:
JavaScript `presenter.firstName || '' + presenter.lastName || ''`, which by
operator precedence is `firstName || (('' + lastName) || '')`; note that
`'' + undefined` is the string "undefined". -/
def fallbackName (firstName : String) (lastName : Option String) : String :=
  if firstName ≠ "" then firstName
  else
    let coerced := match lastName with
      | none => "undefined"
      | some l => l
    if coerced ≠ "" then coerced else ""

/-- zotero.formatItems lines 222-231: one presenter mapped to a creator
entry; a presenter whose first or last name is falsy (empty or absent) falls
back to a single free-text name. -/
def creatorOfPresenter (p : Author) : Creator :=
  match p.lastName with
  | some l =>
      if p.firstName = "" ∨ l = "" then .solo (fallbackName p.firstName (some l))
      else .named p.firstName l
  | none => .solo (fallbackName p.firstName none)

/-- zotero.formatItems lines 221-235: the `creators` value built from the
repackaged presenter list. -/
def formatCreators (presenters : List Author) : Creators :=
  if presenters.length > 0 then .arr (presenters.map creatorOfPresenter)
  else .single (.solo "Unknown")

/-- zotero.formatItems line 258: the fixed URL to which the record id is
appended to form archiveLocation. -/
def archiveBase : List Char :=
  "https://airtable.com/tbl3WP689vHdmg7P2/viwD9Tpr6JAAr97CW/".data

/-- The fields of an ESOVDB video record that drive the parts of
zotero.formatItems covered here; fields whose reads can be absent are
`Option`s or `JSVal`s. -/
structure Video where
  presentersFirstName : Option (List String)
  presentersLastName : Option (List String)
  zoteroKey : JSVal
  zoteroVersion : JSVal
  recordId : String
deriving DecidableEq

/-- The parts of the Zotero item payload built by zotero.formatItems that the
claims are about: the creators value, the archiveLocation display string, and
the optimistic-concurrency token (`key` and `version` fields, present only
when assigned). -/
structure Payload where
  creators : Creators
  archiveLocation : List Char
  key : Option JSVal
  version : Option JSVal
deriving DecidableEq

/-- The payload zotero.formatItems builds once the presenters have been
repackaged: the creators value from lines 221-235, archiveLocation from lines
257-259, and `key` and `version` assigned (lines 269-272) exactly when
`video.zoteroKey && video.zoteroVersion` is truthy. -/
def mkPayload (v : Video) (presenters : List Author) : Payload :=
  { creators := formatCreators presenters
    archiveLocation := archiveBase ++ v.recordId.data
    key :=
      if v.zoteroKey.truthy && v.zoteroVersion.truthy then some v.zoteroKey else none
    version :=
      if v.zoteroKey.truthy && v.zoteroVersion.truthy then some v.zoteroVersion else none }

/-- zotero.formatItems (lines 212-302), restricted to the fields above: line
214 repackages the presenters with util.packageAuthors — which throws when
the first-name field is absent — and the rest builds the payload. -/
def formatItems (v : Video) : Except JSError Payload :=
  (packageAuthors v.presentersFirstName v.presentersLastName).map (mkPayload v)

/-- The fields of a raw Airtable record that the listVideos row projection
reads through util.packageAuthors; an absent field reads as `undefined`. -/
structure SrcRecord where
  presenterFirstName : Option (List String)
  presenterLastName : Option (List String)
deriving DecidableEq

/-- The part of the row object of esovdb.listVideos that the claims concern. -/
structure VideoRow where
  presenters : List Author
deriving DecidableEq

/-- esovdb.listVideos lines 166-195, restricted to the presenters field: the
row object pushed for each Airtable record calls util.packageAuthors on the
two presenter-name fields (lines 182-185), which throws when the first-name
field is absent. -/
def rowOfRecord (r : SrcRecord) : Except JSError VideoRow := do
  let presenters ← packageAuthors r.presenterFirstName r.presenterLastName
  pure ⟨presenters⟩

/-- esovdb.listVideos line 150: the Airtable formula built for the
modifiedAfter filter. -/
def modifiedFilterFormula (modifiedAfter : Nat) : String :=
  "IS_AFTER(\x7bModified\x7d, DATETIME_PARSE(" ++ toString modifiedAfter ++ "))"

/-- esovdb.listVideos line 151: the Airtable formula built for the
createdAfter filter. -/
def createdFilterFormula (createdAfter : Nat) : String :=
  "IS_AFTER(CREATED_TIME(), DATETIME_PARSE(" ++ toString createdAfter ++ "))"

/-- JavaScript truthiness of an optional parsed timestamp, as tested by
`if (modifiedAfter)` and `if (createdAfter)`: absent is falsy, and so is 0. -/
def truthyNum : Option Nat → Bool
  | none => false
  | some n => n ≠ 0

/-- esovdb.listVideos lines 150-151: `options.filterByFormula` after the two
sequential conditional assignments. The modifiedAfter assignment runs first,
the createdAfter assignment runs second on the same field. -/
def filterByFormula (modifiedAfter createdAfter : Option Nat) : Option String :=
  let f : Option String := none
  let f := if truthyNum modifiedAfter then some (modifiedFilterFormula (modifiedAfter.getD 0)) else f
  let f := if truthyNum createdAfter then some (createdFilterFormula (createdAfter.getD 0)) else f
  f

/-- esovdb.listVideos lines 43-46: normalization of the page route param; an
absent, non-numeric, zero or negative value becomes null (`none`), and a
positive 1-based page p becomes the 0-based index p - 1. -/
def normalizePg (pg : Option Int) : Option Nat :=
  match pg with
  | none => none
  | some p => if p ≤ 0 then none else some (p - 1).toNat

/-- JavaScript truthiness of the normalized page param as tested by
`!req.params.pg`: both null and the 0-based index 0 are falsy. -/
def pgFalsy : Option Nat → Bool
  | none => true
  | some 0 => true
  | some (_ + 1) => false

/-- State threaded through the eachPage callback of esovdb.listVideos: the
page counter `pg`, the accumulated `data` array, and the response sent from
inside the page callback, if any. -/
structure WalkState (α : Type) where
  pg : Nat
  data : List α
  sent : Option (List α)
deriving DecidableEq

/-- esovdb.listVideos lines 159-213: one invocation of the page callback on
one page of records. Records are appended to `data` only when
`!req.params.pg || pg == req.params.pg`; the accumulated data is sent as the
response when `pg == req.params.pg`; the counter always advances and the next
page is always fetched. -/
def pageStep (pgParam : Option Nat) (s : WalkState α) (records : List α) : WalkState α :=
  if pgFalsy pgParam ∨ pgParam = some s.pg then
    let data := s.data ++ records
    let sent := if pgParam = some s.pg then some data else s.sent
    ⟨s.pg + 1, data, sent⟩
  else
    ⟨s.pg + 1, s.data, s.sent⟩

/-- The full page-walk: eachPage folds the page callback over the pages that
Airtable delivers, starting from page counter 0 with no accumulated data. -/
def walkPages (pgParam : Option Nat) (pages : List (List α)) : WalkState α :=
  pages.foldl (pageStep pgParam) ⟨0, [], none⟩

/-- The observable effects of one run of the cache-miss path of
esovdb.listVideos: the cache write performed (if any), the response sent from
inside the page callback (if any), and the status and body the done callback
sends. -/
structure ListOutcome (α : Type) where
  cacheWrite : Option (List α)
  pageResponse : Option (List α)
  doneResponse : Nat × (String ⊕ List α)
deriving DecidableEq

/-- esovdb.listVideos lines 155-228 on a cache miss: the page callback runs
on each page delivered before completion or failure, and then the done
callback either reports the error with status 400 and JSON-serialized error
body, writing nothing to the cache, or writes the accumulated data to the
cache and sends it with status 200. -/
def listVideosRun (pgParam : Option Nat) (pages : List (List α)) (err : Option String) :
    ListOutcome α :=
  let s := walkPages pgParam pages
  match err with
  | some e => ⟨none, s.sent, (400, Sum.inl e)⟩
  | none => ⟨some s.data, s.sent, (200, Sum.inr s.data)⟩

/-- The `while (xs.length) { ... xs.splice(0, 50) ... }` loop used both by
esovdb.processUpdates (lines 245-260) and by the Zotero write loop of
zotero.syncItems (lines 329-350): the successive chunks of at most 50 items
removed from the front of the list until it is exhausted, in dispatch order. -/
def spliceChunks : List α → List (List α)
  | [] => []
  | x :: xs => ((x :: xs).take 50) :: spliceChunks ((x :: xs).drop 50)
termination_by l => l.length
decreasing_by
  simp only [List.length_drop, List.length_cons]
  omega

/-- esovdb.processUpdates lines 242-263: the loop splices 50-item chunks off
a copy (`[...videos]`) of the input and dispatches each chunk to Airtable;
the original array is returned unchanged. The first component is the list of
dispatched chunks, the second the return value. -/
def processUpdates (videos : List α) : List (List α) × List α :=
  (spliceChunks videos, videos)

/-- zotero.syncItems lines 329-350: the successive at-most-50-item slices
posted to Zotero by the write loop. -/
def syncItemsChunks (items : List α) : List (List α) :=
  spliceChunks items

/-- esovdb.updateVideos lines 275-283: for a non-empty request body, dispatch
processUpdates on it and send status 200 with the JSON of what it returns; an
empty body gets no response at all. -/
def updateVideos (body : List α) : Option (Nat × List α) :=
  if body.length > 0 then some (200, (processUpdates body).2) else none

/-- zotero.js lines 36-39: the Map from parent collection names to their
fixed Zotero collection ids. -/
def collections : String → Option String := fun parent =>
  if parent = "series" then some "HYQEFRGR"
  else if parent = "topics" then some "EGB8TQZ8"
  else none

/-- zotero.createCollection lines 183-194: if `collections.get(parent)` is
truthy the function issues exactly one POST to Zotero of
`[{name, parentCollection: collections.get(parent)}]`; otherwise it throws
(caught and logged) without issuing any request. The first component lists
the requests issued as (name, parentCollection) pairs; the second records
whether the call reached Zotero. -/
def createCollection (name parent : String) : List (String × String) × Bool :=
  match collections parent with
  | some pid => ([(name, pid)], true)
  | none => ([], false)

/-- A JavaScript word character, the `\w` character class of a regular
expression: ASCII letters, digits and underscore. -/
def wordChar (c : Char) : Bool :=
  decide (('a' ≤ c ∧ c ≤ 'z') ∨ ('A' ≤ c ∧ c ≤ 'Z') ∨ ('0' ≤ c ∧ c ≤ '9') ∨ c = '_')

/-- zotero.syncItems line 359:
`item.data.archiveLocation.match(/rec[\w]{14}$/)[0]`. Every match of this
pattern is the literal "rec" followed by exactly fourteen word characters
ending at the end of the string, so a match, when one exists, is exactly the
final seventeen characters of the string; the model checks that window. -/
def matchRecTail (s : List Char) : Option (List Char) :=
  if s.length < 17 then none
  else
    let t := s.drop (s.length - 17)
    if t.take 3 = ['r', 'e', 'c'] ∧ (t.drop 3).all wordChar then some t else none

end AirtableProxy

deriving instance DecidableEq for Except

namespace AirtableProxy

lemma spliceChunks_length (l : List α) : (spliceChunks l).length = (l.length + 49) / 50 := by
  induction l using spliceChunks.induct with
  | case1 => simp [spliceChunks]
  | case2 x xs ih =>
    rw [spliceChunks]
    simp only [List.length_cons, List.length_drop] at ih ⊢
    omega

lemma spliceChunks_le (l : List α) : ∀ c ∈ spliceChunks l, c.length ≤ 50 := by
  induction l using spliceChunks.induct with
  | case1 => simp [spliceChunks]
  | case2 x xs ih =>
    rw [spliceChunks]
    intro c hc
    rcases List.mem_cons.mp hc with hc | hc
    · subst hc
      rw [List.length_take]
      exact Nat.min_le_left 50 (x :: xs).length
    · exact ih c hc

lemma spliceChunks_flatten (l : List α) : (spliceChunks l).flatten = l := by
  induction l using spliceChunks.induct with
  | case1 => simp [spliceChunks]
  | case2 x xs ih =>
    rw [spliceChunks]
    simp only [List.flatten_cons, ih]
    exact List.take_append_drop 50 (x :: xs)

/-- C4: for every batch of N ≥ 1 items, both the Zotero write loop in
syncItems and the Source update loop in processUpdates split the batch into
exactly ceil(N/50) chunks, each of size at most 50, dispatched sequentially
with the original relative order preserved within chunks and across chunk
boundaries (their concatenation in dispatch order is the original batch). -/
theorem batch_chunking (l : List α) (h : 1 ≤ l.length) :
    ((processUpdates l).1.length = (l.length + 49) / 50 ∧
      (∀ c ∈ (processUpdates l).1, c.length ≤ 50) ∧
      (processUpdates l).1.flatten = l) ∧
    ((syncItemsChunks l).length = (l.length + 49) / 50 ∧
      (∀ c ∈ syncItemsChunks l, c.length ≤ 50) ∧
      (syncItemsChunks l).flatten = l) :=
  ⟨⟨spliceChunks_length l, spliceChunks_le l, spliceChunks_flatten l⟩,
    ⟨spliceChunks_length l, spliceChunks_le l, spliceChunks_flatten l⟩⟩

/-- Witness for C4: a concrete 120-item batch is dispatched as 3 chunks by
both loops, and reassembles to the original batch. -/
theorem batch_chunking_witness :
    1 ≤ (List.range 120).length ∧
    (processUpdates (List.range 120)).1.length = 3 ∧
    (syncItemsChunks (List.range 120)).flatten = List.range 120 := by
  have h := batch_chunking (List.range 120) (by simp)
  refine ⟨by simp, ?_, h.2.2.2⟩
  rw [h.1.1]
  simp

/-- C7: for every non-empty array of update instructions posted to
/videos/update, the handler responds with status 200 and exactly the array it
was given: processUpdates chunks and transmits a copy, returning the original
input array, whose chunks reassemble to the input in order. -/
theorem updateVideos_roundtrip (body : List α) (h : body ≠ []) :
    updateVideos body = some (200, body) ∧
    (processUpdates body).2 = body ∧
    (processUpdates body).1.flatten = body := by
  refine ⟨?_, rfl, spliceChunks_flatten body⟩
  unfold updateVideos
  rw [if_pos (List.length_pos.mpr h)]
  rfl

/-- Witness for C7: a concrete three-element update body gets a 200 response
carrying exactly that body. -/
theorem updateVideos_roundtrip_witness :
    ([1, 2, 3] : List Nat) ≠ [] ∧ updateVideos [1, 2, 3] = some (200, [1, 2, 3]) :=
  ⟨by decide, (updateVideos_roundtrip [1, 2, 3] (by decide)).1⟩

/-- Counterexample for C1: with both filters supplied and parsing to positive
dates (modifiedAfter = 5, createdAfter = 7), the single predicate sent to
Airtable is the creation filter, not the modification filter the claim
promises. -/
theorem filter_precedence_counterexample :
    filterByFormula (some 5) (some 7) = some (createdFilterFormula 7) ∧
    filterByFormula (some 5) (some 7) ≠ some (modifiedFilterFormula 5) := by
  constructor
  · rfl
  · decide

/-- C1 (amended): for every listVideos request that supplies both the
modifiedAfter and the createdAfter query parameters (each parsing to a
positive date), the single server-side filter predicate sent to Source is the
creation filter: the createdAfter assignment runs second and overwrites the
modifiedAfter filter, so createdAfter takes precedence when both are given. -/
theorem filterByFormula_created_wins (m c : Nat) (hm : 0 < m) (hc : 0 < c) :
    filterByFormula (some m) (some c) = some (createdFilterFormula c) := by
  simp [filterByFormula, truthyNum, hc.ne']

/-- Witness for C1 (amended) at modifiedAfter = 5, createdAfter = 7. -/
theorem filterByFormula_created_wins_witness :
    0 < 5 ∧ 0 < 7 ∧ filterByFormula (some 5) (some 7) = some (createdFilterFormula 7) :=
  ⟨by decide, by decide, filterByFormula_created_wins 5 7 (by decide) (by decide)⟩

/-- C3: on a cache miss, if the page-walk fails at any point (the done
callback receives an error after any prefix of pages), the done callback
sends status 400 with the serialized error and performs no cache write; the
cache write happens only on an error-free completion, and then it is exactly
the accumulated data of the full walk. -/
theorem listVideos_error_no_cache (pgParam : Option Nat) (pages : List (List α)) (e : String) :
    (listVideosRun pgParam pages (some e)).cacheWrite = none ∧
    (listVideosRun pgParam pages (some e)).doneResponse = (400, Sum.inl e) ∧
    ∀ pages2 : List (List α),
      (listVideosRun pgParam pages2 none).cacheWrite = some (walkPages pgParam pages2).data :=
  ⟨rfl, rfl, fun _ => rfl⟩

lemma pageStep_skip (k : Nat) (hk : 1 ≤ k) (pg : Nat) (data : List α)
    (sent : Option (List α)) (p : List α) (hne : pg ≠ k) :
    pageStep (some k) ⟨pg, data, sent⟩ p = ⟨pg + 1, data, sent⟩ := by
  obtain ⟨j, rfl⟩ : ∃ j, k = j + 1 := ⟨k - 1, by omega⟩
  unfold pageStep
  rw [if_neg]
  rintro (hf | he)
  · simp [pgFalsy] at hf
  · simp only [Option.some.injEq] at he
    exact hne he.symm

lemma walk_skip (k : Nat) (hk : 1 ≤ k) (ps : List (List α)) :
    ∀ (pg : Nat) (data : List α) (sent : Option (List α)),
      (∀ j, pg ≤ j → j < pg + ps.length → j ≠ k) →
      ps.foldl (pageStep (some k)) ⟨pg, data, sent⟩ = ⟨pg + ps.length, data, sent⟩ := by
  induction ps with
  | nil => intro pg data sent _; simp
  | cons p ps ih =>
    intro pg data sent hs
    have hne : pg ≠ k := hs pg le_rfl (by simp only [List.length_cons]; omega)
    rw [List.foldl_cons, pageStep_skip k hk pg data sent p hne]
    rw [ih (pg + 1) data sent
      (fun j h1 h2 => hs j (by omega) (by simp only [List.length_cons]; omega))]
    simp only [List.length_cons, WalkState.mk.injEq]
    exact ⟨by omega, trivial, trivial⟩

lemma walkPages_paged (pages : List (List α)) (k : Nat) (hk : 1 ≤ k)
    (hlen : k < pages.length) :
    walkPages (some k) pages = ⟨pages.length, pages[k], some pages[k]⟩ := by
  have hsplit : pages = pages.take k ++ pages[k] :: pages.drop (k + 1) := by
    conv_lhs => rw [← List.take_append_drop k pages]
    rw [List.drop_eq_getElem_cons hlen]
  have htk : (pages.take k).length = k := List.length_take_of_le (le_of_lt hlen)
  have hdk : (pages.drop (k + 1)).length = pages.length - (k + 1) := List.length_drop _ _
  unfold walkPages
  conv_lhs => rw [hsplit]
  rw [List.foldl_append, List.foldl_cons]
  rw [walk_skip k hk (pages.take k) 0 [] none (fun j h1 h2 => by omega)]
  have hstep : pageStep (some k) ⟨0 + (pages.take k).length, [], none⟩ pages[k] =
      ⟨k + 1, pages[k], some pages[k]⟩ := by
    unfold pageStep
    rw [if_pos (Or.inr (by simp [htk]))]
    simp [htk]
  rw [hstep]
  rw [walk_skip k hk (pages.drop (k + 1)) (k + 1) pages[k] (some pages[k])
    (fun j h1 h2 => by omega)]
  simp only [WalkState.mk.injEq]
  exact ⟨by omega, trivial, trivial⟩

/-- Counterexample for C2: the 5-row, pageSize-2, page-2 scenario. The
response sent from the page callback is rows 3-4 as the claim says, but the
cache entry written on completion is also just rows 3-4 — not the full 5-row
result set the claim promises. -/
theorem listVideos_cache_counterexample :
    listVideosRun (some 1) [[1, 2], [3, 4], [5]] none =
      ⟨some [3, 4], some [3, 4], (200, Sum.inr [3, 4])⟩ ∧
    (listVideosRun (some 1) [[1, 2], [3, 4], [5]] none).cacheWrite ≠
      some [1, 2, 3, 4, 5] := by
  constructor
  · decide
  · decide

/-- C2 (amended): for every listVideos request that supplies a 1-based page
index p ≥ 2 (0-based k ≥ 1) within range, the HTTP response body contains
exactly the rows of that page and only that page — but the cache entry
written when the page-walk completes also contains exactly that same single
page of rows, not the full multi-page result set: pages before and after the
requested one are skipped by the accumulator. -/
theorem listVideos_paged (pages : List (List α)) (k : Nat) (hk : 1 ≤ k)
    (hlen : k < pages.length) :
    listVideosRun (some k) pages none =
      ⟨some pages[k], some pages[k], (200, Sum.inr pages[k])⟩ := by
  unfold listVideosRun
  rw [walkPages_paged pages k hk hlen]

/-- Witness for C2 (amended) at the 5-row, pageSize-2, page-2 scenario:
response and cache write are both exactly rows 3-4. -/
theorem listVideos_paged_witness :
    1 ≤ 1 ∧ 1 < ([[1, 2], [3, 4], [5]] : List (List Nat)).length ∧
    listVideosRun (some 1) [[1, 2], [3, 4], [5]] none =
      ⟨some [3, 4], some [3, 4], (200, Sum.inr [3, 4])⟩ :=
  ⟨by decide, by decide, listVideos_paged [[1, 2], [3, 4], [5]] 1 (by decide) (by decide)⟩

lemma formatItems_ok_iff (v : Video) (p : Payload) (h : formatItems v = .ok p) :
    ∃ pres, packageAuthors v.presentersFirstName v.presentersLastName = .ok pres ∧
      p = mkPayload v pres := by
  unfold formatItems at h
  cases hpa : packageAuthors v.presentersFirstName v.presentersLastName with
  | error e => rw [hpa] at h; simp [Except.map] at h
  | ok pres =>
    rw [hpa] at h
    simp only [Except.map, Except.ok.injEq] at h
    exact ⟨pres, rfl, h.symm⟩

/-- C5: for every record, the payload produced by formatItems carries the
optimistic-concurrency token — key and version set from the record's
zoteroKey and zoteroVersion, making it an update payload — exactly when the
record has both zoteroKey and zoteroVersion set (truthy); a record with
neither (or only one) produces a payload with no key and no version field
(a create payload). -/
theorem formatItems_token (v : Video) (p : Payload) (h : formatItems v = .ok p) :
    (v.zoteroKey.truthy ∧ v.zoteroVersion.truthy →
      p.key = some v.zoteroKey ∧ p.version = some v.zoteroVersion) ∧
    (¬(v.zoteroKey.truthy ∧ v.zoteroVersion.truthy) →
      p.key = none ∧ p.version = none) := by
  obtain ⟨pres, hpa, rfl⟩ := formatItems_ok_iff v p h
  constructor
  · rintro ⟨h1, h2⟩
    constructor <;> simp [mkPayload, h1, h2]
  · intro hn
    have hfalse : (v.zoteroKey.truthy && v.zoteroVersion.truthy) = false := by
      cases hk : v.zoteroKey.truthy <;> cases hv : v.zoteroVersion.truthy <;> simp_all
    constructor <;> simp [mkPayload, hfalse]

/-- Witness for C5: a record carrying key "KEY123" and version 3 produces an
update payload with exactly that token. -/
theorem formatItems_token_witness :
    formatItems ⟨some ["Jane"], some ["Doe"], JSVal.str "KEY123", JSVal.num 3, "recX"⟩ =
      Except.ok ⟨Creators.arr [Creator.named "Jane" "Doe"], archiveBase ++ "recX".data,
        some (JSVal.str "KEY123"), some (JSVal.num 3)⟩ ∧
    (Except.ok ⟨Creators.arr [Creator.named "Jane" "Doe"], archiveBase ++ "recX".data,
        some (JSVal.str "KEY123"), some (JSVal.num 3)⟩ : Except JSError Payload).isOk ∧
    (⟨Creators.arr [Creator.named "Jane" "Doe"], archiveBase ++ "recX".data,
        some (JSVal.str "KEY123"), some (JSVal.num 3)⟩ : Payload).key =
      some (JSVal.str "KEY123") ∧
    (⟨Creators.arr [Creator.named "Jane" "Doe"], archiveBase ++ "recX".data,
        some (JSVal.str "KEY123"), some (JSVal.num 3)⟩ : Payload).version =
      some (JSVal.num 3) := by
  have h : formatItems ⟨some ["Jane"], some ["Doe"], JSVal.str "KEY123", JSVal.num 3, "recX"⟩ =
      Except.ok ⟨Creators.arr [Creator.named "Jane" "Doe"], archiveBase ++ "recX".data,
        some (JSVal.str "KEY123"), some (JSVal.num 3)⟩ := by decide
  have h2 := (formatItems_token _ _ h).1 ⟨by decide, by decide⟩
  exact ⟨h, by decide, h2.1, h2.2⟩

lemma formatItems_ok_creators (v : Video) (fs ls : List String) (p : Payload)
    (h1 : v.presentersFirstName = some fs) (h2 : v.presentersLastName = some ls)
    (h : formatItems v = .ok p) :
    p.creators = formatCreators (fs.mapIdx fun i f => Author.mk f (ls.get? i)) := by
  obtain ⟨pres, hpa, rfl⟩ := formatItems_ok_iff v p h
  rw [h1, h2] at hpa
  simp only [packageAuthors, Except.ok.injEq] at hpa
  rw [← hpa]
  rfl

/-- C6: formatItems builds the creator list by pairing the presenter
first-name and last-name arrays index-wise into firstName/lastName
contributor entries; an entry missing either part falls back to a single
free-text name field; when no presenter data exists at all the creators value
is a single contributor with the literal name "Unknown"; and first/last
arrays ["Jane"], ["Doe"] yield the creator with firstName "Jane" and
lastName "Doe". -/
theorem formatItems_creators_pairing :
    (∀ (f l : String), f ≠ "" → l ≠ "" →
      creatorOfPresenter ⟨f, some l⟩ = Creator.named f l) ∧
    (∀ (f : String) (l : Option String), f = "" ∨ l = none ∨ l = some "" →
      creatorOfPresenter ⟨f, l⟩ = Creator.solo (fallbackName f l)) ∧
    (∀ (v : Video) (fs ls : List String) (p : Payload),
      v.presentersFirstName = some fs → v.presentersLastName = some ls →
      formatItems v = .ok p →
      p.creators =
        if (fs.mapIdx fun i f => Author.mk f (ls.get? i)).length > 0
        then Creators.arr ((fs.mapIdx fun i f => Author.mk f (ls.get? i)).map creatorOfPresenter)
        else Creators.single (Creator.solo "Unknown")) ∧
    (∀ (v : Video) (p : Payload),
      v.presentersFirstName = some [] → v.presentersLastName = some [] →
      formatItems v = .ok p →
      p.creators = Creators.single (Creator.solo "Unknown")) ∧
    (∀ (v : Video) (p : Payload),
      v.presentersFirstName = some ["Jane"] → v.presentersLastName = some ["Doe"] →
      formatItems v = .ok p →
      p.creators = Creators.arr [Creator.named "Jane" "Doe"]) := by
  refine ⟨?_, ?_, ?_, ?_, ?_⟩
  · intro f l hf hl
    simp [creatorOfPresenter, hf, hl]
  · intro f l hcond
    cases l with
    | none => rfl
    | some s =>
      have hfs : f = "" ∨ s = "" := by
        rcases hcond with h | h | h
        · exact Or.inl h
        · exact absurd h (by simp)
        · simp only [Option.some.injEq] at h
          exact Or.inr h
      simp [creatorOfPresenter, hfs]
  · intro v fs ls p h1 h2 h
    rw [formatItems_ok_creators v fs ls p h1 h2 h]
    rfl
  · intro v p h1 h2 h
    rw [formatItems_ok_creators v [] [] p h1 h2 h]
    rfl
  · intro v p h1 h2 h
    rw [formatItems_ok_creators v ["Jane"] ["Doe"] p h1 h2 h]
    decide

/-- Witness for C6 at concrete inputs: Jane/Doe pairs into a structured
creator, a missing first name falls back to a free-text name, and an empty
presenter pair yields the single Unknown contributor. -/
theorem formatItems_creators_pairing_witness :
    ("Jane" : String) ≠ "" ∧ ("Doe" : String) ≠ "" ∧
    creatorOfPresenter ⟨"Jane", some "Doe"⟩ = Creator.named "Jane" "Doe" ∧
    creatorOfPresenter ⟨"", some "Doe"⟩ = Creator.solo (fallbackName "" (some "Doe")) ∧
    formatItems ⟨some [], some [], JSVal.undef, JSVal.undef, "recX"⟩ =
      Except.ok ⟨Creators.single (Creator.solo "Unknown"), archiveBase ++ "recX".data,
        none, none⟩ ∧
    (⟨Creators.single (Creator.solo "Unknown"), archiveBase ++ "recX".data,
        none, none⟩ : Payload).creators = Creators.single (Creator.solo "Unknown") := by
  have hempty : formatItems ⟨some [], some [], JSVal.undef, JSVal.undef, "recX"⟩ =
      Except.ok ⟨Creators.single (Creator.solo "Unknown"), archiveBase ++ "recX".data,
        none, none⟩ := by decide
  refine ⟨by decide, by decide,
    formatItems_creators_pairing.1 "Jane" "Doe" (by decide) (by decide),
    formatItems_creators_pairing.2.1 "" (some "Doe") (Or.inl rfl),
    hempty,
    formatItems_creators_pairing.2.2.2.1 _ _ rfl rfl hempty⟩

/-- C8: createCollection with a parent that is not one of the recognized
kinds ("series", "topics") fails immediately, issuing no request to Zotero;
with a recognized parent it issues exactly one collection-create request
under that parent's fixed collection identifier. -/
theorem createCollection_dispatch (name parent : String) :
    (parent ≠ "series" ∧ parent ≠ "topics" →
      createCollection name parent = ([], false)) ∧
    (∀ pid, collections parent = some pid →
      createCollection name parent = ([(name, pid)], true)) := by
  constructor
  · rintro ⟨h1, h2⟩
    unfold createCollection collections
    rw [if_neg h1, if_neg h2]
  · intro pid hp
    unfold createCollection
    rw [hp]

/-- Witness for C8: the unrecognized parent "banana" issues no request, while
"series" issues exactly one request under its fixed id. -/
theorem createCollection_dispatch_witness :
    (("banana" : String) ≠ "series" ∧ ("banana" : String) ≠ "topics") ∧
    createCollection "Alps" "banana" = ([], false) ∧
    collections "series" = some "HYQEFRGR" ∧
    createCollection "Alps" "series" = ([("Alps", "HYQEFRGR")], true) :=
  ⟨⟨by decide, by decide⟩,
    (createCollection_dispatch "Alps" "banana").1 ⟨by decide, by decide⟩,
    by decide,
    (createCollection_dispatch "Alps" "series").2 "HYQEFRGR" (by decide)⟩

/-- C9: packageAuthors is partial — with an absent first-name array it throws
a TypeError; consequently for every Source record whose presenter-first-name
field is absent, the listVideos row projection errors, and for every video
object with an absent presentersFirstName field, formatItems errors instead
of producing an empty presenter list. -/
theorem packageAuthors_partial (l : Option (List String)) (r : SrcRecord) (v : Video)
    (hr : r.presenterFirstName = none) (hv : v.presentersFirstName = none) :
    packageAuthors none l = .error .typeError ∧
    rowOfRecord r = .error .typeError ∧
    formatItems v = .error .typeError := by
  refine ⟨rfl, ?_, ?_⟩
  · unfold rowOfRecord
    rw [hr]
    rfl
  · unfold formatItems
    rw [hv]
    rfl

/-- Witness for C9 at a record and a video whose presenter-first-name field
is absent but whose last-name field is present. -/
theorem packageAuthors_partial_witness :
    (⟨none, some ["Doe"]⟩ : SrcRecord).presenterFirstName = none ∧
    (⟨none, some ["Doe"], JSVal.undef, JSVal.undef, "recX"⟩ : Video).presentersFirstName = none ∧
    packageAuthors none (some ["Doe"]) = .error .typeError ∧
    rowOfRecord ⟨none, some ["Doe"]⟩ = .error .typeError ∧
    formatItems ⟨none, some ["Doe"], JSVal.undef, JSVal.undef, "recX"⟩ = .error .typeError := by
  have h := packageAuthors_partial (some ["Doe"]) ⟨none, some ["Doe"]⟩
    ⟨none, some ["Doe"], JSVal.undef, JSVal.undef, "recX"⟩ rfl rfl
  exact ⟨rfl, rfl, h.1, h.2.1, h.2.2⟩

lemma matchRecTail_append (pre w : List Char) (hlen : w.length = 14)
    (hchar : w.all wordChar) :
    matchRecTail (pre ++ ('r' :: 'e' :: 'c' :: w)) = some ('r' :: 'e' :: 'c' :: w) := by
  have hlen2 : (pre ++ ('r' :: 'e' :: 'c' :: w)).length = pre.length + 17 := by
    rw [List.length_append]
    simp [hlen]
  have hsub : pre.length + 17 - 17 = pre.length := by omega
  have hdrop : (pre ++ ('r' :: 'e' :: 'c' :: w)).drop
      ((pre ++ ('r' :: 'e' :: 'c' :: w)).length - 17) = 'r' :: 'e' :: 'c' :: w := by
    rw [hlen2, hsub]
    exact List.drop_left pre _
  unfold matchRecTail
  rw [if_neg (by rw [hlen2]; omega), hdrop]
  rw [if_pos ⟨rfl, hchar⟩]

/-- C10: round-trip of the Source identifier through the display string. For
every video whose recordId is "rec" followed by exactly 14 word characters,
the archiveLocation built by formatItems (the fixed URL followed by
recordId) is mapped back by the syncItems regex extraction to exactly that
recordId, so each back-sync patch instruction targets the originating Source
record. -/
theorem archiveLocation_roundtrip (v : Video) (w : List Char) (p : Payload)
    (hw : v.recordId.data = 'r' :: 'e' :: 'c' :: w)
    (hlen : w.length = 14) (hchar : w.all wordChar)
    (hp : formatItems v = .ok p) :
    matchRecTail p.archiveLocation = some v.recordId.data := by
  obtain ⟨pres, hpa, rfl⟩ := formatItems_ok_iff v p hp
  have harch : (mkPayload v pres).archiveLocation = archiveBase ++ v.recordId.data := rfl
  rw [harch, hw]
  exact matchRecTail_append archiveBase w hlen hchar

/-- Witness for C10 at the record id "recABCDEFGHIJKLMN". -/
theorem archiveLocation_roundtrip_witness :
    ("recABCDEFGHIJKLMN" : String).data = 'r' :: 'e' :: 'c' :: "ABCDEFGHIJKLMN".data ∧
    ("ABCDEFGHIJKLMN".data).length = 14 ∧
    ("ABCDEFGHIJKLMN".data).all wordChar ∧
    matchRecTail (archiveBase ++ "recABCDEFGHIJKLMN".data) =
      some ("recABCDEFGHIJKLMN".data) := by
  have hp : formatItems ⟨some [], some [], JSVal.undef, JSVal.undef, "recABCDEFGHIJKLMN"⟩ =
      Except.ok ⟨Creators.single (Creator.solo "Unknown"),
        archiveBase ++ "recABCDEFGHIJKLMN".data, none, none⟩ := by decide
  have h := archiveLocation_roundtrip
    ⟨some [], some [], JSVal.undef, JSVal.undef, "recABCDEFGHIJKLMN"⟩
    "ABCDEFGHIJKLMN".data
    ⟨Creators.single (Creator.solo "Unknown"),
      archiveBase ++ "recABCDEFGHIJKLMN".data, none, none⟩
    (by decide) (by decide) (by decide) hp
  exact ⟨by decide, by decide, by decide, h⟩

end AirtableProxy
